import Mathlib

/-!
Shallow embedding of the lucask07/ophyd repository (src/ophyd/scpi.py and
src/ophyd/ee_instruments.py) and proofs about the claims of its specification.

The embedding models:
  * the status-monitor spin-poll loop of ScpiSignalBase.trigger (scpi.py 84-109),
  * ScpiSignal.set (scpi.py 173-192),
  * the ScpiSignalFileSave state machine: stage / trigger / read / get_array /
    collect_asset_docs / unstage (scpi.py 377-475),
  * the StatCalculator compute closure (scpi.py 499-514),
  * apply_filter (ee_instruments.py 38-47),
  * generate_ophyd_obj (ee_instruments.py 121-265).

External-library effects (instrument I/O, file writes, the host framework) are
modelled as explicit event traces; Python dicts that are only ever assigned and
looked up are modelled as assignment logs where the last assignment to a key
wins.
-/

/-- Python str() of an optional string: `str(None)` is the string `"None"`.
Used to model how `'{}'.format(x)` renders `x` when an attribute is None. -/
def pyStr : Option String → String
  | some s => s
  | none => "None"

/-- The file-name / datum-id format string `'{}_{}_{}.{}'.format(stem, idx, cnt, ext)`
from ScpiSignalFileSave.trigger (scpi.py 428, 434).  Parenthesised to the right so
that the stem is a definitional prefix of the result. -/
def fmtName (stem : String) (idx cnt : Nat) (ext : String) : String :=
  stem ++ ("_" ++ (toString idx ++ ("_" ++ (toString cnt ++ ("." ++ ext)))))

/-- `os.path.join(a, b)` for a relative `b`, with POSIX path semantics
(scpi.py 406). -/
def pathJoin (a b : String) : String :=
  a ++ ("/" ++ b)

/-- Python `int()` applied to an exact rational: truncation toward zero
(`Int.div` is T-division). -/
def pyInt (q : ℚ) : Int :=
  Int.tdiv q.num (Int.ofNat q.den)

/-- Python extended slice `xs[start::step]` for a nonnegative start and a positive
step: the elements at indices start, start + step, start + 2*step, ...
(A zero step raises ValueError in Python; the claims only use positive steps,
and the theorems carry the corresponding hypotheses.) -/
def pySlice {α : Type} (xs : List α) (start step : Nat) : List α :=
  if step = 0 then []
  else (List.range xs.length).filterMap (fun j => xs.get? (start + j * step))

/-!  ### ScpiSignalBase: trigger with a status monitor (scpi.py 84-109)

`trigger` performs external instrument I/O; we model it by the trace of
control-layer calls it makes.  The values returned by successive calls of
`self._status_read()` are an oracle `reads : Nat → S`; the loop is given fuel
and the trace is `none` when the fuel is exhausted (the loop would still be
spinning), so a terminating trace exists exactly when some status read passes
the threshold. -/

/-- One externally visible action of `ScpiSignalBase.trigger`. -/
inductive ScpiEvent where
  /-- `scpi_cl.set(None, name=tname, configs=status_monitor['trig_configs'])`
  issued by `trig_func` for one entry of `status_monitor['trig_name']`. -/
  | trig_cmd (tname : String)
  /-- the i-th call of `self._status_read()` (0-based). -/
  | status_read (i : Nat)
  /-- `time.sleep(self._poll_time)`. -/
  | sleep (poll_time : ℚ)
  /-- `self._post_status(None)`. -/
  | post_status
  /-- the underlying `super().trigger()`. -/
  | sig_trigger
deriving DecidableEq, Repr

/-- The parts of the `status_monitor` dictionary read by `__init__` and
`trigger` (scpi.py 84-98).  The command names/configs of the status read and
of the post-status write only select which instrument channel is used; the
trace events stand for those calls. -/
structure StatusMonitor (S L : Type) where
  trig_name : List String
  threshold_function : S → L → Bool
  threshold_level : L
  poll_time : ℚ

/-- The poll loop of `ScpiSignalBase.trigger` (scpi.py 104-105):
`while not threshold_function(status_read(), threshold_level): sleep(poll_time)`.
`i` is the index of the next status read; returns `none` when the fuel runs
out before a read passes the threshold. -/
def ScpiSignalBase.pollEvents {S L : Type} (thr : S → L → Bool) (lvl : L)
    (reads : Nat → S) (pt : ℚ) : Nat → Nat → Option (List ScpiEvent)
  | 0, _ => none
  | fuel + 1, i =>
    if thr (reads i) lvl then
      some [ScpiEvent.status_read i]
    else
      (ScpiSignalBase.pollEvents thr lvl reads pt fuel (i + 1)).map
        (fun t => ScpiEvent.status_read i :: ScpiEvent.sleep pt :: t)

/-- The trace of `ScpiSignalBase.trigger` (scpi.py 100-109).  With a status
monitor: first `trig_func` (one trigger command per entry of `trig_name`),
then the poll loop, then `post_status(None)`, then `super().trigger()`.
Without a monitor only the underlying trigger happens. -/
def ScpiSignalBase.triggerEvents {S L : Type} (mon : Option (StatusMonitor S L))
    (reads : Nat → S) (fuel : Nat) : Option (List ScpiEvent) :=
  match mon with
  | none => some [ScpiEvent.sig_trigger]
  | some m =>
    (ScpiSignalBase.pollEvents m.threshold_function m.threshold_level reads
        m.poll_time fuel 0).map
      (fun p => m.trig_name.map ScpiEvent.trig_cmd ++ p
        ++ [ScpiEvent.post_status, ScpiEvent.sig_trigger])

theorem ScpiSignalBase.pollEvents_eq {S L : Type} (thr : S → L → Bool) (lvl : L)
    (reads : Nat → S) (pt : ℚ) :
    ∀ (k i fuel : Nat),
      (∀ j, j < k → thr (reads (i + j)) lvl = false) →
      thr (reads (i + k)) lvl = true →
      k < fuel →
      ScpiSignalBase.pollEvents thr lvl reads pt fuel i =
        some (((List.range k).flatMap
            fun j => [ScpiEvent.status_read (i + j), ScpiEvent.sleep pt])
          ++ [ScpiEvent.status_read (i + k)]) := by
  intro k
  induction k with
  | zero =>
    intro i fuel _ hpass hfuel
    match fuel, hfuel with
    | fuel + 1, _ =>
      simp only [ScpiSignalBase.pollEvents]
      rw [show i + 0 = i from rfl] at hpass
      simp [hpass]
  | succ k ih =>
    intro i fuel hfail hpass hfuel
    match fuel, hfuel with
    | fuel + 1, hfuel =>
      have h0 : thr (reads i) lvl = false := by
        have := hfail 0 (Nat.succ_pos k)
        simpa using this
      have hrec := ih (i + 1) fuel
        (fun j hj => by
          have := hfail (j + 1) (Nat.succ_lt_succ hj)
          simpa [Nat.add_assoc, Nat.add_comm 1 j] using this)
        (by
          have : i + 1 + k = i + (k + 1) := by omega
          rw [this]; exact hpass)
        (Nat.lt_of_succ_lt_succ hfuel)
      simp only [ScpiSignalBase.pollEvents, h0, Bool.false_eq_true, if_false, hrec]
      rw [List.range_succ_eq_map, List.flatMap_cons, List.flatMap_map]
      have hfun : (fun a => [ScpiEvent.status_read (i + Nat.succ a), ScpiEvent.sleep pt])
          = fun a => [ScpiEvent.status_read (i + 1 + a), ScpiEvent.sleep pt] := by
        funext a
        have hj : i + Nat.succ a = i + 1 + a := by omega
        rw [hj]
      rw [hfun]
      have hik : i + (k + 1) = i + 1 + k := by omega
      simp [hik]

/-- Claim C1: for every ScpiSignalBase constructed with a status_monitor,
trigger() first issues the monitor's trigger commands, then spin-polls: it
reads the status, and while threshold_function(status_read(), threshold_level)
is false it sleeps poll_time between successive status reads; the post-status
write and the underlying signal trigger are issued only after the first status
read that passes the threshold.  Formally: if the reads with index < k fail the
threshold and read k passes it, the trace of trigger() is exactly the trigger
commands, then reads 0..k separated by sleeps of poll_time, then post_status,
then the underlying trigger. -/
theorem ScpiSignalBase.trigger_monitor_spin_poll {S L : Type}
    (m : StatusMonitor S L) (reads : Nat → S) (k fuel : Nat)
    (hfail : ∀ j, j < k → m.threshold_function (reads j) m.threshold_level = false)
    (hpass : m.threshold_function (reads k) m.threshold_level = true)
    (hfuel : k < fuel) :
    ScpiSignalBase.triggerEvents (some m) reads fuel =
      some (m.trig_name.map ScpiEvent.trig_cmd
        ++ ((List.range k).flatMap
            fun j => [ScpiEvent.status_read j, ScpiEvent.sleep m.poll_time])
        ++ [ScpiEvent.status_read k, ScpiEvent.post_status, ScpiEvent.sig_trigger]) := by
  have hp := ScpiSignalBase.pollEvents_eq m.threshold_function m.threshold_level reads
    m.poll_time k 0 fuel (fun j hj => by simpa using hfail j hj) (by simpa using hpass) hfuel
  simp only [ScpiSignalBase.triggerEvents, hp, Option.map_some']
  congr 1
  have : ∀ j : Nat, 0 + j = j := by omega
  simp [this, List.append_assoc]

/-- Witness for C1 at a concrete monitor: threshold is "status at least 2",
the status reads return 0, 1, 2, ...; the loop polls three times. -/
theorem ScpiSignalBase.trigger_monitor_spin_poll_witness :
    ScpiSignalBase.triggerEvents
        (some { trig_name := ["trig_src"],
                threshold_function := fun (s l : Nat) => decide (l ≤ s),
                threshold_level := 2, poll_time := 1 })
        (fun i => i) 3 =
      some [ScpiEvent.trig_cmd "trig_src",
        ScpiEvent.status_read 0, ScpiEvent.sleep 1,
        ScpiEvent.status_read 1, ScpiEvent.sleep 1,
        ScpiEvent.status_read 2, ScpiEvent.post_status, ScpiEvent.sig_trigger] := by
  have h := ScpiSignalBase.trigger_monitor_spin_poll
    { trig_name := ["trig_src"],
      threshold_function := fun (s l : Nat) => decide (l ≤ s),
      threshold_level := 2, poll_time := 1 }
    (fun i => i) 2 3 (by decide) (by decide) (by decide)
  simpa using h

/-! ### ScpiSignal.set (scpi.py 173-192)

`set(value)` builds a Status, calls the control-layer setter, and finishes the
status iff the first element of the setter's return tuple is truthy.  When
`self.delay` is truthy the setter call, the sleep and the finish happen on a
daemon thread; the model records that eventual effect together with the sleep
performed.  `setter_ret_first` gives the truthiness of `ret[0]` for the
control-layer call `self._set(value=value)`. -/

/-- The observable outcome of `ScpiSignal.set`: whether the returned Status
has been finished, the list of values the control-layer setter was invoked
with, and the sleep performed (by the daemon thread, when `delay` is truthy). -/
structure SetOutcome (V : Type) where
  status_finished : Bool
  setter_calls : List V
  slept : Option ℚ
deriving DecidableEq, Repr

/-- Python truthiness of `self.delay` (initialized to None; a value of 0 is
falsy). -/
def pyTruthyDelay : Option ℚ → Bool
  | none => false
  | some d => d != 0

/-- `ScpiSignal.set` (scpi.py 173-192).  `if self.delay:` spawns
`sleep_and_finish` on a thread: the setter is called with the value, then the
thread sleeps `delay`, then the status is finished iff `ret[0]`; otherwise the
same happens synchronously without the sleep. -/
def ScpiSignal.set {V : Type} (delay : Option ℚ) (setter_ret_first : V → Bool)
    (value : V) : SetOutcome V :=
  if pyTruthyDelay delay then
    { status_finished := setter_ret_first value, setter_calls := [value], slept := delay }
  else
    { status_finished := setter_ret_first value, setter_calls := [value], slept := none }

/-- Claim C8: with delay unset (None), set(value) invokes the control-layer
setter exactly once with that value, and the returned Status is finished iff
the first element of the setter's return tuple is truthy; a falsy first
element leaves the status unfinished and raises nothing (the model is a total
function). -/
theorem ScpiSignal.set_no_delay_behavior {V : Type} (setter_ret_first : V → Bool)
    (value : V) :
    (ScpiSignal.set none setter_ret_first value).setter_calls = [value] ∧
    ((ScpiSignal.set none setter_ret_first value).status_finished = true ↔
      setter_ret_first value = true) ∧
    (ScpiSignal.set none setter_ret_first value).slept = none :=
  ⟨rfl, Iff.rfl, rfl⟩

/-! ### StatCalculator (scpi.py 499-514)

The closure `func` built by `StatCalculator.__init__`: `self._img` is either
absent or a callable returning an optional array.  The model also returns the
list of arguments `stat_func` was applied to, so that "stat_func is not
called" is expressible. -/

/-- The compute closure of StatCalculator: first component is the returned
value, second the arguments `stat_func` was called with. -/
def StatCalculator.compute {A B : Type} (img : Option (Unit → Option A))
    (stat_func : A → B) : Option B × List A :=
  match img with
  | some g =>
    match g () with
    | none => (none, [])
    | some m => (some (stat_func m), [m])
  | none => (none, [])

/-- Claim C9: the wrapped compute function returns None without calling
stat_func (and without raising: the model is total) whenever no image source
is attached or the attached source returns None; otherwise it returns
stat_func applied to the source's array. -/
theorem StatCalculator.compute_guards {A B : Type} (stat_func : A → B)
    (g : Unit → Option A) (m : A) :
    StatCalculator.compute (none : Option (Unit → Option A)) stat_func = (none, []) ∧
    (g () = none → StatCalculator.compute (some g) stat_func = (none, [])) ∧
    (g () = some m → StatCalculator.compute (some g) stat_func = (some (stat_func m), [m])) := by
  refine ⟨rfl, fun h => ?_, fun h => ?_⟩
  · simp [StatCalculator.compute, h]
  · simp [StatCalculator.compute, h]

/-- Witness for C9: an attached source returning the array 3 with stat_func
Nat.succ, and an attached source returning None. -/
theorem StatCalculator.compute_guards_witness :
    StatCalculator.compute (some fun _ => some 3) Nat.succ = (some 4, [3]) ∧
    StatCalculator.compute (some fun _ => (none : Option Nat)) Nat.succ = (none, []) :=
  ⟨(StatCalculator.compute_guards Nat.succ (fun _ => some 3) 3).2.2 rfl,
   (StatCalculator.compute_guards Nat.succ (fun _ => none) 3).2.1 rfl⟩

/-! ### ScpiSignalFileSave (scpi.py 350-475)

The signal's per-instance attributes form the state; `new_uid()` values are
supplied as inputs; `self.save_func(file_name, array)` calls are emitted as
`SaveEvent`s (the save function itself is external I/O and is recorded by
name); `super().read()` is an input (for ScpiSignalBase it is the single-entry
dict `{self.name: {'value': self.value, 'timestamp': self.timestamp}}`, the
model accepts any list of name/reading pairs in dict iteration order).
`itertools.count()` is modelled by `datum_counter = some n` holding the next
value to be yielded; `next(None)` (trigger before any stage) is the failure
case, modelled by `Option`. -/

/-- A value held in a reading: a raw numeric array pulled from the instrument,
or a datum-id string referencing externally stored data. -/
inductive SigVal where
  | arr (data : List ℚ)
  | ref (datum_id : String)
deriving DecidableEq, Repr

/-- One entry of a readings dict: `{'value': ..., 'timestamp': ...}`. -/
structure Reading where
  value : SigVal
  timestamp : ℚ
deriving DecidableEq, Repr

/-- The resource document built by `stage` (scpi.py 409-415).
`resource_kwargs` is always the empty dict and is omitted; `path_semantics`
is `os.name` ("posix" on the deployment platform). -/
structure ResourceDoc where
  spec : String
  root : String
  resource_path : String
  path_semantics : String
  uid : String
deriving DecidableEq, Repr

/-- The datum document built by `trigger` (scpi.py 430-436);
`datum_kwargs = dict(index=idx)` is modelled by `datum_index`. -/
structure DatumDoc where
  resource : String
  datum_index : Nat
  datum_id : String
deriving DecidableEq, Repr

/-- The document half of an asset-cache entry. -/
inductive DocU where
  | res (r : ResourceDoc)
  | dat (d : DatumDoc)
deriving DecidableEq, Repr

/-- A `self.save_func(file_name, array)` call (scpi.py 428-429), recorded with
the name of the save function. -/
structure SaveEvent where
  func : String
  path : String
  data : SigVal
deriving DecidableEq, Repr

/-- The attributes of a ScpiSignalFileSave set in `__init__` (scpi.py 377-399)
and mutated by the lifecycle methods.  `save_func` is stored by name; the
asset-docs cache is the deque as a list, oldest first. -/
structure FileSaveState where
  save_path : String
  save_func : String
  save_ext : String
  spec : String
  dtype : String
  precision : Nat
  resource_uid : Option String
  datum_counter : Option Nat
  asset_docs_cache : List (String × DocU)
  file_stem : Option String
  path_stem : Option String
  result : List (String × Reading)
  value : Option SigVal
deriving DecidableEq, Repr

/-- `ScpiSignalFileSave.__init__` (scpi.py 377-399) with an explicit
`save_path` (when `save_path is None` the code calls an unimported `mkdtemp`). -/
def ScpiSignalFileSave.init (save_path save_func save_ext save_spec dtype : String)
    (precision : Nat) : FileSaveState :=
  { save_path := save_path, save_func := save_func, save_ext := save_ext,
    spec := save_spec, dtype := dtype, precision := precision,
    resource_uid := none, datum_counter := none, asset_docs_cache := [],
    file_stem := none, path_stem := none, result := [], value := none }

/-- `ScpiSignalFileSave.stage` (scpi.py 401-416); `uid` is the value returned
by `new_uid()`. -/
def ScpiSignalFileSave.stage (uid : String) (s : FileSaveState) : FileSaveState :=
  { s with
    resource_uid := some uid,
    file_stem := some uid,
    path_stem := some (pathJoin s.save_path uid),
    datum_counter := some 0,
    asset_docs_cache := s.asset_docs_cache ++
      [("resource", DocU.res
        { spec := s.spec, root := s.save_path, resource_path := uid,
          path_semantics := "posix", uid := uid })] }

/-- The body of the `for idx, (name, reading) in enumerate(super().read().items())`
loop of `ScpiSignalFileSave.trigger` (scpi.py 422-443), iterated over the
remaining items; fails (`none`) when `next(self._datum_counter)` is applied to
None, i.e. when the signal was never staged. -/
def ScpiSignalFileSave.triggerItems :
    FileSaveState → Nat → List (String × Reading) →
      Option (FileSaveState × List SaveEvent)
  | s, _, [] => some (s, [])
  | s, idx, (nm, rd) :: rest =>
    match s.datum_counter with
    | none => none
    | some cnt =>
      let fname := fmtName (pyStr s.path_stem) idx cnt s.save_ext
      let datum_id := fmtName (pyStr s.resource_uid) idx cnt s.save_ext
      let s' : FileSaveState := { s with
        datum_counter := some (cnt + 1),
        asset_docs_cache := s.asset_docs_cache ++
          [("datum", DocU.dat
            { resource := pyStr s.resource_uid, datum_index := idx,
              datum_id := datum_id })],
        value := some rd.value,
        result := s.result ++ [(nm, { value := SigVal.ref datum_id,
                                      timestamp := rd.timestamp })] }
      match ScpiSignalFileSave.triggerItems s' (idx + 1) rest with
      | none => none
      | some (sf, evs) => some (sf, { func := s.save_func, path := fname,
                                      data := rd.value } :: evs)

/-- `ScpiSignalFileSave.trigger` (scpi.py 418-445): the underlying
`super().trigger()` happens first (its trace is `ScpiSignalBase.triggerEvents`
and it does not touch the file-save state), then `self._result.clear()`, then
the enumerate loop.  `underlying` is `super().read().items()`. -/
def ScpiSignalFileSave.trigger (s : FileSaveState)
    (underlying : List (String × Reading)) :
    Option (FileSaveState × List SaveEvent) :=
  ScpiSignalFileSave.triggerItems { s with result := [] } 0 underlying

/-- `ScpiSignalFileSave.read` (scpi.py 447-450). -/
def ScpiSignalFileSave.read (s : FileSaveState) : List (String × Reading) :=
  s.result

/-- `ScpiSignalFileSave.get_array` (scpi.py 452-453). -/
def ScpiSignalFileSave.get_array (s : FileSaveState) : Option SigVal :=
  s.value

/-- `ScpiSignalFileSave.collect_asset_docs` (scpi.py 463-467): list the cache,
clear it, yield the listed items in order. -/
def ScpiSignalFileSave.collect_asset_docs (s : FileSaveState) :
    List (String × DocU) × FileSaveState :=
  (s.asset_docs_cache, { s with asset_docs_cache := [] })

/-- `ScpiSignalFileSave.unstage` (scpi.py 469-475). -/
def ScpiSignalFileSave.unstage (s : FileSaveState) : FileSaveState :=
  { s with
    resource_uid := none,
    datum_counter := none,
    asset_docs_cache := [],
    file_stem := none,
    path_stem := none,
    result := [] }

/-- The file-save state after triggering a staged signal on the single
underlying reading `(nm, value, ts)`: the datum counter advances, a datum
document referencing `uid` is appended to the asset cache, the raw value is
stashed in memory, and the read result maps the signal name to the datum id. -/
def ScpiSignalFileSave.afterTrigger1 (s : FileSaveState) (uid : String) (cnt : Nat)
    (nm : String) (v : SigVal) (ts : ℚ) : FileSaveState :=
  { s with
    datum_counter := some (cnt + 1),
    asset_docs_cache := s.asset_docs_cache ++
      [("datum", DocU.dat
        { resource := uid, datum_index := 0,
          datum_id := fmtName uid 0 cnt s.save_ext })],
    value := some v,
    result := [(nm, { value := SigVal.ref (fmtName uid 0 cnt s.save_ext),
                      timestamp := ts })] }

/-- Claim C3: for every staged ScpiSignalFileSave, trigger() persists the
reading's value through save_func under a file name built from the path stem,
the reading index, the datum counter and save_ext, and replaces the reading's
value with the generated datum_id, so that a subsequent read() returns the
datum_id reference while get_array() still returns the raw array held in
memory. -/
theorem ScpiSignalFileSave.trigger_persists_and_swaps (s : FileSaveState)
    (uid ps : String) (cnt : Nat) (nm : String) (a : List ℚ) (ts : ℚ)
    (h1 : s.resource_uid = some uid) (h2 : s.path_stem = some ps)
    (h3 : s.datum_counter = some cnt) :
    ScpiSignalFileSave.trigger s [(nm, { value := SigVal.arr a, timestamp := ts })] =
      some (ScpiSignalFileSave.afterTrigger1 s uid cnt nm (SigVal.arr a) ts,
        [{ func := s.save_func, path := fmtName ps 0 cnt s.save_ext,
           data := SigVal.arr a }]) ∧
    ScpiSignalFileSave.read
        (ScpiSignalFileSave.afterTrigger1 s uid cnt nm (SigVal.arr a) ts) =
      [(nm, { value := SigVal.ref (fmtName uid 0 cnt s.save_ext), timestamp := ts })] ∧
    ScpiSignalFileSave.get_array
        (ScpiSignalFileSave.afterTrigger1 s uid cnt nm (SigVal.arr a) ts) =
      some (SigVal.arr a) := by
  refine ⟨?_, rfl, rfl⟩
  simp [ScpiSignalFileSave.trigger, ScpiSignalFileSave.triggerItems,
    ScpiSignalFileSave.afterTrigger1, h1, h2, h3, pyStr]

/-- Witness for C3: a concrete staged state. -/
theorem ScpiSignalFileSave.trigger_persists_and_swaps_witness :
    ScpiSignalFileSave.trigger
        (ScpiSignalFileSave.stage "u0"
          (ScpiSignalFileSave.init "data" "np.save" "npy" "NPY_SEQ" "string" 80))
        [("dmm_burst", { value := SigVal.arr [3, 4], timestamp := 7 })] =
      some (ScpiSignalFileSave.afterTrigger1
          (ScpiSignalFileSave.stage "u0"
            (ScpiSignalFileSave.init "data" "np.save" "npy" "NPY_SEQ" "string" 80))
          "u0" 0 "dmm_burst" (SigVal.arr [3, 4]) 7,
        [{ func := "np.save", path := fmtName "data/u0" 0 0 "npy",
           data := SigVal.arr [3, 4] }]) := by
  have h := ScpiSignalFileSave.trigger_persists_and_swaps
    (ScpiSignalFileSave.stage "u0"
      (ScpiSignalFileSave.init "data" "np.save" "npy" "NPY_SEQ" "string" 80))
    "u0" "data/u0" 0 "dmm_burst" [3, 4] 7 rfl rfl rfl
  exact h.1

/-- Claim C5: collect_asset_docs() yields exactly the documents currently in
the asset-document cache, in insertion (FIFO) order, and leaves the cache
empty, so a second call with no intervening stage() or trigger() yields
nothing. -/
theorem ScpiSignalFileSave.collect_asset_docs_drains (s : FileSaveState) :
    ScpiSignalFileSave.collect_asset_docs s =
      (s.asset_docs_cache, { s with asset_docs_cache := [] }) ∧
    (ScpiSignalFileSave.collect_asset_docs
        (ScpiSignalFileSave.collect_asset_docs s).2).1 = [] :=
  ⟨rfl, rfl⟩

/-- Claim C7: each stage() call generates a fresh resource uid (the new_uid()
input), sets the file stem and path stem from it, restarts the datum counter
at 0, and appends exactly one resource record whose uid and resource_path both
equal that uid; the first datum after staging gets count 0 (shown by the save
file name of a subsequent trigger). -/
theorem ScpiSignalFileSave.stage_prepares_run (s : FileSaveState) (uid nm : String)
    (v : SigVal) (ts : ℚ) :
    ScpiSignalFileSave.stage uid s =
      { s with
        resource_uid := some uid,
        file_stem := some uid,
        path_stem := some (pathJoin s.save_path uid),
        datum_counter := some 0,
        asset_docs_cache := s.asset_docs_cache ++
          [("resource", DocU.res
            { spec := s.spec, root := s.save_path, resource_path := uid,
              path_semantics := "posix", uid := uid })] } ∧
    (ScpiSignalFileSave.trigger (ScpiSignalFileSave.stage uid s)
        [(nm, { value := v, timestamp := ts })]).map Prod.snd =
      some [{ func := s.save_func,
              path := fmtName (pathJoin s.save_path uid) 0 0 s.save_ext,
              data := v }] := by
  refine ⟨rfl, ?_⟩
  simp [ScpiSignalFileSave.trigger, ScpiSignalFileSave.triggerItems,
    ScpiSignalFileSave.stage, pyStr]

/-- Claim C10: unstage() clears only the per-run state (resource uid and datum
counter become None, the asset cache, path/file stems and the read result are
emptied, so read() returns an empty dict and collect_asset_docs() yields
nothing) while the persistent configuration (save_path, save_func, save_ext,
save spec, dtype, precision) is unchanged. -/
theorem ScpiSignalFileSave.unstage_clears_run_state (s : FileSaveState) :
    ScpiSignalFileSave.unstage s =
      { s with
        resource_uid := none,
        datum_counter := none,
        asset_docs_cache := [],
        file_stem := none,
        path_stem := none,
        result := [] } ∧
    ScpiSignalFileSave.read (ScpiSignalFileSave.unstage s) = [] ∧
    (ScpiSignalFileSave.collect_asset_docs (ScpiSignalFileSave.unstage s)).1 = [] ∧
    (ScpiSignalFileSave.unstage s).save_path = s.save_path ∧
    (ScpiSignalFileSave.unstage s).save_func = s.save_func ∧
    (ScpiSignalFileSave.unstage s).save_ext = s.save_ext ∧
    (ScpiSignalFileSave.unstage s).spec = s.spec ∧
    (ScpiSignalFileSave.unstage s).dtype = s.dtype ∧
    (ScpiSignalFileSave.unstage s).precision = s.precision ∧
    (ScpiSignalFileSave.unstage s).value = s.value :=
  ⟨rfl, rfl, rfl, rfl, rfl, rfl, rfl, rfl, rfl, rfl⟩

/-! ### Runs of a ScpiSignalFileSave: the asset-cache invariant (C4)

A run applies the lifecycle methods to a freshly constructed signal; every
element appended to the asset-docs cache is logged together with the uid of
the most recent `stage()` call (the "ghost" `last_stage`) and whether it was
appended by a stage. -/

/-- One lifecycle call on a ScpiSignalFileSave. -/
inductive FsOp where
  | stage (uid : String)
  | trigger (underlying : List (String × Reading))
  | collect
  | unstage
deriving DecidableEq, Repr

/-- An element placed in the asset-docs cache, with the ghost data of the run
at the moment of placement. -/
structure Placed where
  tag : String
  doc : DocU
  by_stage : Bool
  last_stage_uid : Option String
deriving DecidableEq, Repr

/-- The elements a method appended to the cache: the suffix of the new cache
past the old one. -/
def placedOf (old new : List (String × DocU)) (byStage : Bool)
    (g : Option String) : List Placed :=
  (new.drop old.length).map (fun e => { tag := e.1, doc := e.2,
                                        by_stage := byStage, last_stage_uid := g })

/-- One run step: the new state, the uid of the most recent stage() call, and
the cache elements placed by this step. -/
def FsRun.step (s : FileSaveState) (g : Option String) (op : FsOp) :
    Option (FileSaveState × Option String × List Placed) :=
  match op with
  | .stage uid =>
    let s' := ScpiSignalFileSave.stage uid s
    some (s', some uid, placedOf s.asset_docs_cache s'.asset_docs_cache true (some uid))
  | .trigger u =>
    match ScpiSignalFileSave.trigger s u with
    | none => none
    | some (s', _) =>
      some (s', g, placedOf s.asset_docs_cache s'.asset_docs_cache false g)
  | .collect => some ((ScpiSignalFileSave.collect_asset_docs s).2, g, [])
  | .unstage => some (ScpiSignalFileSave.unstage s, g, [])

/-- A run: fold the steps, accumulating the placement log. -/
def FsRun.run (s : FileSaveState) (g : Option String) (log : List Placed) :
    List FsOp → Option (FileSaveState × Option String × List Placed)
  | [] => some (s, g, log)
  | op :: ops =>
    match FsRun.step s g op with
    | none => none
    | some (s', g', pl) => FsRun.run s' g' (log ++ pl) ops

/-- What claim C4 asserts of an element ever placed in the asset-docs cache:
it is a ('resource', doc) pair appended by stage whose doc's uid is the uid of
that (most recent) stage, or a ('datum', doc) pair appended by trigger whose
doc's resource field is the uid of the most recent stage and whose datum_id
has that uid as a prefix. -/
def GoodPlaced (p : Placed) : Prop :=
  (p.tag = "resource" ∧ p.by_stage = true ∧
    ∃ r, p.doc = DocU.res r ∧ p.last_stage_uid = some r.uid) ∨
  (p.tag = "datum" ∧ p.by_stage = false ∧
    ∃ u d, p.last_stage_uid = some u ∧ p.doc = DocU.dat d ∧
      d.resource = u ∧ ∃ rest, d.datum_id = u ++ rest)

/-- The run invariant: whenever the datum counter is live the signal holds the
resource uid of the most recent stage() call. -/
def FsInv (s : FileSaveState) (g : Option String) : Prop :=
  ∀ c, s.datum_counter = some c → ∃ u, s.resource_uid = some u ∧ g = some u

theorem ScpiSignalFileSave.triggerItems_cache_spec :
    ∀ (items : List (String × Reading)) (s : FileSaveState) (idx : Nat)
      (sf : FileSaveState) (evs : List SaveEvent),
      ScpiSignalFileSave.triggerItems s idx items = some (sf, evs) →
      sf.resource_uid = s.resource_uid ∧
      sf.datum_counter.isSome = s.datum_counter.isSome ∧
      ∃ ds, sf.asset_docs_cache = s.asset_docs_cache ++ ds ∧
        (ds ≠ [] → s.datum_counter.isSome = true) ∧
        ∀ e ∈ ds, e.1 = "datum" ∧
          ∃ d, e.2 = DocU.dat d ∧ d.resource = pyStr s.resource_uid ∧
            ∃ rest, d.datum_id = pyStr s.resource_uid ++ rest := by
  intro items
  induction items with
  | nil =>
    intro s idx sf evs h
    simp only [ScpiSignalFileSave.triggerItems, Option.some.injEq, Prod.mk.injEq] at h
    obtain ⟨rfl, rfl⟩ := h
    exact ⟨rfl, rfl, [], by simp⟩
  | cons it rest ih =>
    intro s idx sf evs h
    obtain ⟨nm, rd⟩ := it
    simp only [ScpiSignalFileSave.triggerItems] at h
    split at h
    · exact absurd h (by simp)
    · rename_i cnt hc
      split at h
      · exact absurd h (by simp)
      · rename_i sf2 evs2 hr
        simp only [Option.some.injEq, Prod.mk.injEq] at h
        obtain ⟨rfl, -⟩ := h
        obtain ⟨hu, hcnt, ds, hcache, -, hds⟩ := ih _ _ _ _ hr
        refine ⟨hu, by simp [hcnt, hc],
          ("datum", DocU.dat
            { resource := pyStr s.resource_uid, datum_index := idx,
              datum_id := fmtName (pyStr s.resource_uid) idx cnt s.save_ext }) :: ds,
          ?_, ?_, ?_⟩
        · rw [hcache]; simp
        · intro _; simp [hc]
        · intro e he
          rcases List.mem_cons.mp he with rfl | he2
          · refine ⟨rfl, _, rfl, rfl, ?_⟩
            exact ⟨"_" ++ (toString idx ++ ("_" ++ (toString cnt ++ ("." ++ s.save_ext)))),
              rfl⟩
          · simpa using hds e he2

theorem FsRun.step_good (s : FileSaveState) (g : Option String) (op : FsOp)
    (s' : FileSaveState) (g' : Option String) (pl : List Placed)
    (hinv : FsInv s g) (h : FsRun.step s g op = some (s', g', pl)) :
    FsInv s' g' ∧ ∀ p ∈ pl, GoodPlaced p := by
  cases op with
  | stage uid =>
    simp only [FsRun.step, Option.some.injEq, Prod.mk.injEq] at h
    obtain ⟨rfl, rfl, rfl⟩ := h
    constructor
    · intro c _
      exact ⟨uid, rfl, rfl⟩
    · intro p hp
      simp only [placedOf, ScpiSignalFileSave.stage, List.drop_left, List.map_cons,
        List.map_nil, List.mem_singleton] at hp
      subst hp
      exact Or.inl ⟨rfl, rfl, _, rfl, rfl⟩
  | trigger u =>
    simp only [FsRun.step] at h
    split at h
    · exact absurd h (by simp)
    · rename_i st evs hr
      simp only [Option.some.injEq, Prod.mk.injEq] at h
      obtain ⟨rfl, rfl, rfl⟩ := h
      have hspec := ScpiSignalFileSave.triggerItems_cache_spec u
        { s with result := [] } 0 st evs hr
      obtain ⟨hu, hcnt, ds, hcache, hne, hds⟩ := hspec
      constructor
      · intro c hcc
        have : ({ s with result := [] } : FileSaveState).datum_counter.isSome = true := by
          rw [← hcnt, hcc]; rfl
        simp only [] at this
        obtain ⟨c0, hc0⟩ := Option.isSome_iff_exists.mp this
        obtain ⟨w, hw1, hw2⟩ := hinv c0 hc0
        exact ⟨w, by rw [hu]; exact hw1, hw2⟩
      · intro p hp
        simp only [placedOf] at hp
        have hcache' : st.asset_docs_cache = s.asset_docs_cache ++ ds := hcache
        rw [hcache', List.drop_left] at hp
        obtain ⟨e, he, rfl⟩ := List.mem_map.mp hp
        have hds' := hds e he
        obtain ⟨htag, d, hdoc, hres, rest, hid⟩ := hds'
        have hnonempty : ds ≠ [] := by
          intro hemp; rw [hemp] at he; exact absurd he (List.not_mem_nil e)
        have hcsome := hne hnonempty
        obtain ⟨c0, hc0⟩ := Option.isSome_iff_exists.mp hcsome
        obtain ⟨w, hw1, hw2⟩ := hinv c0 hc0
        refine Or.inr ⟨htag, rfl, w, d, hw2, hdoc, ?_, rest, ?_⟩
        · rw [hres]
          show pyStr ({ s with result := ([] : List (String × Reading)) }).resource_uid = w
          simp only []
          rw [hw1]; rfl
        · rw [hid]
          show pyStr ({ s with result := ([] : List (String × Reading)) }).resource_uid
              ++ rest = w ++ rest
          simp only []
          rw [hw1]; rfl
  | collect =>
    simp only [FsRun.step, Option.some.injEq, Prod.mk.injEq,
      ScpiSignalFileSave.collect_asset_docs] at h
    obtain ⟨rfl, rfl, rfl⟩ := h
    refine ⟨fun c hcc => hinv c hcc, by simp⟩
  | unstage =>
    simp only [FsRun.step, Option.some.injEq, Prod.mk.injEq,
      ScpiSignalFileSave.unstage] at h
    obtain ⟨rfl, rfl, rfl⟩ := h
    exact ⟨fun c hcc => by simp at hcc, by simp⟩

theorem FsRun.run_good :
    ∀ (ops : List FsOp) (s : FileSaveState) (g : Option String) (log : List Placed)
      (r : FileSaveState × Option String × List Placed),
      FsInv s g → (∀ q ∈ log, GoodPlaced q) →
      FsRun.run s g log ops = some r →
      ∀ p ∈ r.2.2, GoodPlaced p := by
  intro ops
  induction ops with
  | nil =>
    intro s g log r _ hlog h
    simp only [FsRun.run, Option.some.injEq] at h
    subst h
    exact hlog
  | cons op ops ih =>
    intro s g log r hinv hlog h
    simp only [FsRun.run] at h
    split at h
    · exact absurd h (by simp)
    · rename_i s' g' pl hstep
      obtain ⟨hinv', hpl⟩ := FsRun.step_good s g op s' g' pl hinv hstep
      exact ih s' g' (log ++ pl) r hinv'
        (fun q hq => (List.mem_append.mp hq).elim (hlog q) (hpl q)) h

/-- Claim C4: in every run of a freshly constructed ScpiSignalFileSave, every
element ever placed in the asset-document cache is either a ('resource', doc)
pair appended by stage() or a ('datum', doc) pair appended by trigger(), and
every datum doc's 'resource' field and datum_id prefix equal the uid of the
resource doc created by the most recent stage() call. -/
theorem ScpiSignalFileSave.asset_cache_docs_wellformed
    (save_path save_func save_ext save_spec dtype : String) (precision : Nat)
    (ops : List FsOp) (r : FileSaveState × Option String × List Placed)
    (p : Placed)
    (h : FsRun.run
        (ScpiSignalFileSave.init save_path save_func save_ext save_spec dtype precision)
        none [] ops = some r)
    (hp : p ∈ r.2.2) : GoodPlaced p := by
  refine FsRun.run_good ops _ none [] r ?_ (by simp) h p hp
  intro c hc
  simp [ScpiSignalFileSave.init] at hc

/-- The result of the run stage("u1"); trigger; stage("u2") used as the C4
witness: final state, ghost uid of the most recent stage, and placement log. -/
def fsRunExample : FileSaveState × Option String × List Placed :=
  (⟨"data", "np.save", "npy", "NPY_SEQ", "string", 80,
    some "u2", some 0,
    [("resource", DocU.res ⟨"NPY_SEQ", "data", "u1", "posix", "u1"⟩),
     ("datum", DocU.dat ⟨"u1", 0, "u1_0_0.npy"⟩),
     ("resource", DocU.res ⟨"NPY_SEQ", "data", "u2", "posix", "u2"⟩)],
    some "u2", some "data/u2",
    [("dmm", ⟨SigVal.ref "u1_0_0.npy", 0⟩)],
    some (SigVal.arr [1])⟩,
   some "u2",
   [⟨"resource", DocU.res ⟨"NPY_SEQ", "data", "u1", "posix", "u1"⟩, true, some "u1"⟩,
    ⟨"datum", DocU.dat ⟨"u1", 0, "u1_0_0.npy"⟩, false, some "u1"⟩,
    ⟨"resource", DocU.res ⟨"NPY_SEQ", "data", "u2", "posix", "u2"⟩, true, some "u2"⟩])

/-- Witness for C4: the datum document placed by the trigger in the run
stage("u1"); trigger on a one-element reading; stage("u2") carries the uid
"u1" of the stage most recent at its placement. -/
theorem ScpiSignalFileSave.asset_cache_docs_wellformed_witness :
    GoodPlaced ⟨"datum", DocU.dat ⟨"u1", 0, "u1_0_0.npy"⟩, false, some "u1"⟩ :=
  ScpiSignalFileSave.asset_cache_docs_wellformed
    "data" "np.save" "npy" "NPY_SEQ" "string" 80
    [FsOp.stage "u1",
     FsOp.trigger [("dmm", ⟨SigVal.arr [1], 0⟩)],
     FsOp.stage "u2"]
    fsRunExample _ (by decide) (by decide)

/-! ### apply_filter (ee_instruments.py 38-47)

`scipy.signal.filtfilt` is an external dependency: it is passed in as an
uninterpreted function.  Arithmetic is exact rational arithmetic. -/

/-- `apply_filter(arr, num, denom, sample_rate, tau, final_stat_function)`
(ee_instruments.py 38-47): low-pass filter the array with filtfilt, drop the
settling samples, decimate, and apply the final statistic.  The slice indices
are computed as in the source: `int(tau_settle * tau / (1 / sample_rate))`
and `int(tau / (1 / sample_rate))` with `tau_settle = 5` (both nonnegative
for positive tau and sample_rate, so `Int.toNat` is faithful there). -/
def apply_filter (filtfilt : List ℚ → List ℚ → List ℚ → List ℚ)
    (arr num denom : List ℚ) (sample_rate tau : ℚ)
    (final_stat_function : List ℚ → ℚ) : ℚ :=
  let output_signal := filtfilt num denom arr
  let tau_settle : ℚ := 5
  let settle_idx := (pyInt (tau_settle * tau / (1 / sample_rate))).toNat
  let decimate_length := (pyInt (tau / (1 / sample_rate))).toNat
  let arr_downsample := pySlice output_signal settle_idx decimate_length
  final_stat_function arr_downsample

/-- The claim's reading of apply_filter, stated in the spec's own terms:
filter with filtfilt, then keep every decimate_length-th sample starting at
settle_idx, with settle_idx = int(5 * tau * sample_rate) and
decimate_length = int(tau * sample_rate), then apply final_stat_function. -/
def apply_filter_spec (filtfilt : List ℚ → List ℚ → List ℚ → List ℚ)
    (arr num denom : List ℚ) (sample_rate tau : ℚ)
    (final_stat_function : List ℚ → ℚ) : ℚ :=
  final_stat_function (pySlice (filtfilt num denom arr)
    (pyInt (5 * tau * sample_rate)).toNat
    (pyInt (tau * sample_rate)).toNat)

/-- Claim C6: for every input array, apply_filter returns final_stat_function
applied to the decimated filtered signal: it filters the array with filtfilt
for the given numerator/denominator, then keeps every decimate_length-th
sample starting at index settle_idx, with settle_idx = int(5 * tau *
sample_rate) and decimate_length = int(tau * sample_rate). -/
theorem apply_filter_decimates_spec (filtfilt : List ℚ → List ℚ → List ℚ → List ℚ)
    (arr num denom : List ℚ) (sample_rate tau : ℚ)
    (final_stat_function : List ℚ → ℚ)
    (_hsr : 0 < sample_rate) (_htau : 0 < tau) :
    apply_filter filtfilt arr num denom sample_rate tau final_stat_function =
      apply_filter_spec filtfilt arr num denom sample_rate tau final_stat_function := by
  have h1 : (5 : ℚ) * tau / (1 / sample_rate) = 5 * tau * sample_rate := by
    rw [div_div_eq_mul_div, mul_div_assoc, div_one]
  have h2 : tau / (1 / sample_rate) = tau * sample_rate := by
    rw [div_div_eq_mul_div, mul_div_assoc, div_one]
  simp only [apply_filter, apply_filter_spec, h1, h2]

/-- Witness for C6 with the identity in place of filtfilt, sample_rate 2,
tau 1 (settle index 10, decimation step 2). -/
theorem apply_filter_decimates_spec_witness :
    apply_filter (fun _ _ a => a) [0, 1, 2, 3, 4, 5, 6, 7, 8, 9, 10, 11, 12, 13]
        [] [] 2 1 (fun l => (l.length : ℚ)) =
      apply_filter_spec (fun _ _ a => a) [0, 1, 2, 3, 4, 5, 6, 7, 8, 9, 10, 11, 12, 13]
        [] [] 2 1 (fun l => (l.length : ℚ)) :=
  apply_filter_decimates_spec (fun _ _ a => a) [0, 1, 2, 3, 4, 5, 6, 7, 8, 9, 10, 11, 12, 13]
    [] [] 2 1 (fun l => (l.length : ℚ)) (by norm_num) (by norm_num)

/-! ### generate_ophyd_obj (ee_instruments.py 121-265)

The function iterates over `scpi_obj._cmds` and fills a `components` dict with
`Component(...)` values; `type(name, (Device,), components)` then builds the
Device class.  The model captures per command the list of dict assignments the
loop body performs (a Python dict assignment appends to the log; a lookup
takes the last assignment to the key).  Component construction arguments that
are opaque external configuration (save paths from `data_save.directory`, the
signal name, the control-layer reference) are not part of the component spec;
the signal class, cmd_name, configs dict, kind and the explicitly passed
precision / save_spec / save_ext are. -/

/-- The class of the control-layer object, as tested by the isinstance checks
of generate_ophyd_obj: the four special instrument classes are subclasses of
scpi.SCPI. -/
inductive InstrKind where
  | scpiPlain
  | keysightMultimeter
  | rigolPowerSupply
  | srsLockIn
  | keysightOscilloscope
  | icDevice
  | otherKind
deriving DecidableEq, Repr

/-- `isinstance(scpi_obj, scpi.SCPI)`. -/
def InstrKind.isSCPI : InstrKind → Bool
  | .scpiPlain | .keysightMultimeter | .rigolPowerSupply | .srsLockIn
  | .keysightOscilloscope => true
  | .icDevice | .otherKind => false

/-- The attributes of one instrbuilder command read by generate_ophyd_obj.
`has_returns_array_attr` is `hasattr(cmd.getter_type, 'returns_array')` and
`returns_array` the attribute's value when present; the `ascii_has_*` fields
record whether the literal substrings '{ac_dc}', '{chan}', '{channel}' occur
in `cmd.ascii_str`; `read_write` is the IC-command access string. -/
structure Cmd where
  name : String
  is_config : Bool
  setter : Bool
  getter_inputs : Nat
  setter_inputs : Nat
  has_returns_array_attr : Bool
  returns_array : Bool
  ascii_has_ac_dc : Bool
  ascii_has_chan : Bool
  ascii_has_channel : Bool
  read_write : String
deriving DecidableEq, Repr

/-- The control-layer object: its class, its command dict `_cmds` in iteration
order, and `_channels` (used by the RigolPowerSupply branch). -/
structure ScpiObj where
  kind : InstrKind
  cmds : List Cmd
  channels : List Nat
deriving DecidableEq, Repr

/-- `ophyd.device.Kind` values passed to Component. -/
inductive CompKind where
  | config
  | normal
deriving DecidableEq, Repr

/-- A value in a `configs` dict. -/
inductive ConfigVal where
  | s (v : String)
  | q (v : ℚ)
deriving DecidableEq, Repr

/-- Which signal class the Component wraps. -/
inductive SigClass where
  | scpiSignal
  | scpiSignalBase
  | scpiSignalFileSave
deriving DecidableEq, Repr

/-- The observable arguments of a `Component(...)` built by
generate_ophyd_obj; `kind` is `none` when no kind argument is passed. -/
structure CompSpec where
  cls : SigClass
  cmd_name : String
  configs : List (String × ConfigVal)
  kind : Option CompKind
  precision : Option Nat
  save_spec : Option String
  save_ext : Option String
deriving DecidableEq, Repr

/-- A value assigned into the `components` dict: a Component, or the plain
`scpi_obj.unconnected` attribute (ee_instruments.py 259). -/
inductive DictEntry where
  | comp (c : CompSpec)
  | pyObj
deriving DecidableEq, Repr

/-- `comp_kind` (ee_instruments.py 124-127). -/
def comp_kind_of (cmd : Cmd) : CompKind :=
  if cmd.is_config then CompKind.config else CompKind.normal

/-- The configs dict of the burst_volt file-save component
(ee_instruments.py 138-139). -/
def burst_volt_configs : List (String × ConfigVal) :=
  [("reads_per_trigger", ConfigVal.q 1024), ("aperture", ConfigVal.q (20 / 1000000)),
   ("trig_source", ConfigVal.s "EXT"), ("trig_count", ConfigVal.q 1)]

/-- The configs dict of the burst_volt_timer file-save component
(ee_instruments.py 148-150). -/
def burst_volt_timer_configs : List (String × ConfigVal) :=
  [("reads_per_trigger", ConfigVal.q 8), ("aperture", ConfigVal.q (20 / 1000000)),
   ("trig_source", ConfigVal.s "EXT"), ("trig_count", ConfigVal.q 2048),
   ("sample_timer", ConfigVal.q (320 / 1000000)), ("repeats", ConfigVal.q 1)]

/-- A ScpiSignal / ScpiSignalBase component with a configs dict and a kind
(the common Component shape of generate_ophyd_obj). -/
def plainComp (cls : SigClass) (cmd_name : String)
    (configs : List (String × ConfigVal)) (kind : Option CompKind) : DictEntry :=
  DictEntry.comp
    { cls := cls, cmd_name := cmd_name, configs := configs, kind := kind,
      precision := none, save_spec := none, save_ext := none }

/-- A ScpiSignalFileSave component with kind Normal and precision 10 (the
burst_volt / burst_volt_timer shape, ee_instruments.py 132-150). -/
def fileSaveComp (cmd_name : String) (configs : List (String × ConfigVal)) : DictEntry :=
  DictEntry.comp
    { cls := SigClass.scpiSignalFileSave, cmd_name := cmd_name, configs := configs,
      kind := some CompKind.normal, precision := some 10,
      save_spec := none, save_ext := none }

/-- KeysightMultimeter AC/DC components (ee_instruments.py 165-181). -/
def multimeterExtras (cmd : Cmd) : List (String × DictEntry) :=
  (if cmd.setter = true ∧ cmd.getter_inputs = 1 ∧ cmd.setter_inputs = 2 ∧
      cmd.ascii_has_ac_dc = true then
    [(cmd.name ++ "_dc", plainComp SigClass.scpiSignal cmd.name
      [("ac_dc", ConfigVal.s "DC")] (some (comp_kind_of cmd)))] else [])
  ++ (if cmd.setter = false ∧ cmd.getter_inputs = 1 ∧ cmd.ascii_has_ac_dc = true then
    [(cmd.name ++ "_dc", plainComp SigClass.scpiSignalBase cmd.name
      [("ac_dc", ConfigVal.s "DC")] (some (comp_kind_of cmd)))] else [])
  ++ (if cmd.setter = true ∧ cmd.getter_inputs = 1 ∧ cmd.setter_inputs = 2 ∧
      cmd.ascii_has_ac_dc = true then
    [(cmd.name ++ "_ac", plainComp SigClass.scpiSignal cmd.name
      [("ac_dc", ConfigVal.s "AC")] (some (comp_kind_of cmd)))] else [])
  ++ (if cmd.setter = false ∧ cmd.getter_inputs = 1 ∧ cmd.ascii_has_ac_dc = true then
    [(cmd.name ++ "_ac", plainComp SigClass.scpiSignalBase cmd.name
      [("ac_dc", ConfigVal.s "AC")] (some (comp_kind_of cmd)))] else [])

/-- RigolPowerSupply per-channel components (ee_instruments.py 184-192); note
the source tests '{chan}' for the setter variant but '{channel}' for the
getter variant. -/
def powerSupplyExtras (channels : List Nat) (cmd : Cmd) : List (String × DictEntry) :=
  channels.flatMap fun chan =>
    (if cmd.setter = true ∧ cmd.getter_inputs = 1 ∧ cmd.setter_inputs = 2 ∧
        cmd.ascii_has_chan = true then
      [(cmd.name ++ "_chan" ++ toString chan, plainComp SigClass.scpiSignal cmd.name
        [("chan", ConfigVal.q chan)] (some (comp_kind_of cmd)))] else [])
    ++ (if cmd.setter = false ∧ cmd.getter_inputs = 1 ∧ cmd.ascii_has_channel = true then
      [(cmd.name ++ "_chan" ++ toString chan, plainComp SigClass.scpiSignalBase cmd.name
        [("chan", ConfigVal.q chan)] (some (comp_kind_of cmd)))] else [])

/-- SRSLockIn long-command components (ee_instruments.py 194-202); these are
(re)assigned on every command iteration and pass no kind argument. -/
def lockInExtras : List (String × DictEntry) :=
  [("off_exp", plainComp SigClass.scpiSignal "off_exp" [("chan", ConfigVal.q 2)] none),
   ("ch1_disp", plainComp SigClass.scpiSignal "ch1_disp" [("ratio", ConfigVal.q 0)] none)]

/-- KeysightOscilloscope components (ee_instruments.py 206-246).  The inner
`hasattr(cmd.getter_type, 'returns_array')` test is repeated here even though
this code only runs in the outer not-hasattr branch, so the display_data
branch is unreachable; it is kept for fidelity. -/
def oscilloscopeExtras (cmd : Cmd) : List (String × DictEntry) :=
  (if cmd.has_returns_array_attr = true then
    (if cmd.name = "display_data" then
      [(cmd.name, DictEntry.comp
        { cls := SigClass.scpiSignalFileSave, cmd_name := cmd.name, configs := [],
          kind := some CompKind.normal, precision := some 10,
          save_spec := some "PNG", save_ext := some "png" })] else [])
   else
    (if cmd.setter = true ∧ cmd.getter_inputs = 0 ∧ cmd.setter_inputs < 2 then
      [(cmd.name, plainComp SigClass.scpiSignal cmd.name [] (some (comp_kind_of cmd)))]
     else [])
    ++ (if cmd.setter = false ∧ cmd.getter_inputs = 0 then
      [(cmd.name, plainComp SigClass.scpiSignalBase cmd.name [] (some (comp_kind_of cmd)))]
     else []))
  ++ ([1, 2, 3, 4].flatMap fun chan =>
    (if cmd.setter = true ∧ cmd.getter_inputs = 1 ∧ cmd.setter_inputs = 2 ∧
        cmd.ascii_has_chan = true then
      [(cmd.name ++ "_chan" ++ toString chan, plainComp SigClass.scpiSignal cmd.name
        [("chan", ConfigVal.q chan)] (some (comp_kind_of cmd)))] else [])
    ++ (if cmd.setter = false ∧ cmd.getter_inputs = 1 ∧ cmd.ascii_has_chan = true then
      [(cmd.name ++ "_chan" ++ toString chan, plainComp SigClass.scpiSignalBase cmd.name
        [("chan", ConfigVal.q chan)] (some (comp_kind_of cmd)))] else []))
  ++ (if cmd.name = "meas_phase" then
    [(cmd.name, plainComp SigClass.scpiSignalBase cmd.name
      [("chan1", ConfigVal.q 1), ("chan2", ConfigVal.q 2)] (some (comp_kind_of cmd)))]
   else [])

/-- The `components` dict assignments made by one iteration of the
`for cmd_key, cmd in scpi_obj._cmds.items()` loop (ee_instruments.py 123-257),
in program order. -/
def componentsForCmd (obj : ScpiObj) (cmd : Cmd) : List (String × DictEntry) :=
  if obj.kind.isSCPI = true then
    if cmd.has_returns_array_attr = true then
      (if cmd.name = "burst_volt" then
        [(cmd.name, fileSaveComp cmd.name burst_volt_configs)] else [])
      ++ (if cmd.name = "burst_volt_timer" then
        [(cmd.name, fileSaveComp cmd.name burst_volt_timer_configs)] else [])
      -- `if cmd.getter_type.returns_array:` only prints a skip message
    else
      (if cmd.setter = true ∧ cmd.getter_inputs = 0 ∧ cmd.setter_inputs < 2 then
        [(cmd.name, plainComp SigClass.scpiSignal cmd.name [] (some (comp_kind_of cmd)))]
       else [])
      ++ (if cmd.setter = false ∧ cmd.getter_inputs = 0 then
        [(cmd.name, plainComp SigClass.scpiSignalBase cmd.name [] (some (comp_kind_of cmd)))]
       else [])
      ++ (if obj.kind = InstrKind.keysightMultimeter then multimeterExtras cmd else [])
      ++ (if obj.kind = InstrKind.rigolPowerSupply then
            powerSupplyExtras obj.channels cmd else [])
      ++ (if obj.kind = InstrKind.srsLockIn then lockInExtras else [])
      ++ (if obj.kind = InstrKind.keysightOscilloscope then oscilloscopeExtras cmd else [])
  else if obj.kind = InstrKind.icDevice then
    if cmd.read_write = "R/W" ∨ cmd.read_write = "W" then
      [(cmd.name, plainComp SigClass.scpiSignal cmd.name [] (some (comp_kind_of cmd)))]
    else if cmd.read_write = "R" then
      [(cmd.name, plainComp SigClass.scpiSignal cmd.name [] (some (comp_kind_of cmd)))]
    else []
  else []
  -- `else: print('unexpected Class type')`

/-- All `components` dict assignments of generate_ophyd_obj in program order:
the per-command loop, then `components['unconnected'] = scpi_obj.unconnected`
(ee_instruments.py 259). -/
def generate_ophyd_obj (obj : ScpiObj) : List (String × DictEntry) :=
  (obj.cmds.flatMap (componentsForCmd obj)) ++ [("unconnected", DictEntry.pyObj)]

/-- Python dict lookup over the assignment log: the last assignment to the key
wins; `none` when the key was never assigned. -/
def dictLookup (l : List (String × DictEntry)) (k : String) : Option DictEntry :=
  ((l.filter (fun p => p.1 == k)).getLast?).map Prod.snd

theorem componentsForCmd_plain (obj : ScpiObj) (cmd : Cmd)
    (hk : obj.kind = InstrKind.scpiPlain) :
    componentsForCmd obj cmd =
      if cmd.has_returns_array_attr = true then
        (if cmd.name = "burst_volt" then
          [(cmd.name, fileSaveComp cmd.name burst_volt_configs)] else [])
        ++ (if cmd.name = "burst_volt_timer" then
          [(cmd.name, fileSaveComp cmd.name burst_volt_timer_configs)] else [])
      else
        (if cmd.setter = true ∧ cmd.getter_inputs = 0 ∧ cmd.setter_inputs < 2 then
          [(cmd.name, plainComp SigClass.scpiSignal cmd.name [] (some (comp_kind_of cmd)))]
         else [])
        ++ (if cmd.setter = false ∧ cmd.getter_inputs = 0 then
          [(cmd.name, plainComp SigClass.scpiSignalBase cmd.name []
            (some (comp_kind_of cmd)))]
         else []) := by
  simp [componentsForCmd, hk, InstrKind.isSCPI]

theorem componentsForCmd_plain_keys (obj : ScpiObj) (cmd : Cmd)
    (hk : obj.kind = InstrKind.scpiPlain) :
    ∀ p ∈ componentsForCmd obj cmd, p.1 = cmd.name := by
  intro p hp
  rw [componentsForCmd_plain obj cmd hk] at hp
  split at hp <;>
    (simp only [List.mem_append] at hp
     rcases hp with hp | hp <;> (split at hp <;> simp_all))

theorem filter_flatMap_single (l : List Cmd) (f : Cmd → List (String × DictEntry))
    (c : Cmd) (hkeys : ∀ c' ∈ l, ∀ p ∈ f c', p.1 = c'.name) :
    c ∈ l → (l.map Cmd.name).Nodup →
    (l.flatMap f).filter (fun p => p.1 == c.name) = f c := by
  induction l with
  | nil => intro hmem; cases hmem
  | cons a l ih =>
    intro hmem hnd
    rw [List.flatMap_cons, List.filter_append]
    rw [List.map_cons] at hnd
    have hnd' := List.nodup_cons.mp hnd
    rcases List.mem_cons.mp hmem with rfl | hmem'
    · have h1 : (f c).filter (fun p => p.1 == c.name) = f c := by
        rw [List.filter_eq_self]
        intro p hp
        simp [hkeys c (List.mem_cons_self c l) p hp]
      have h2 : (l.flatMap f).filter (fun p => p.1 == c.name) = [] := by
        rw [List.filter_eq_nil_iff]
        intro p hp
        obtain ⟨c', hc', hp'⟩ := List.mem_flatMap.mp hp
        have hpc : p.1 = c'.name := hkeys c' (List.mem_cons_of_mem _ hc') p hp'
        have hne : c'.name ≠ c.name := by
          intro heq
          exact hnd'.1 (heq ▸ List.mem_map_of_mem Cmd.name hc')
        simp [hpc, hne]
      rw [h1, h2, List.append_nil]
    · have hane : a.name ≠ c.name := by
        intro heq
        exact hnd'.1 (heq ▸ List.mem_map_of_mem Cmd.name hmem')
      have h1 : (f a).filter (fun p => p.1 == c.name) = [] := by
        rw [List.filter_eq_nil_iff]
        intro p hp
        have hpa : p.1 = a.name := hkeys a (List.mem_cons_self a l) p hp
        simp [hpa, hane]
      rw [h1, List.nil_append]
      exact ih (fun c' hc' => hkeys c' (List.mem_cons_of_mem _ hc')) hmem' hnd'.2

/-- A plain-SCPI command whose getter type carries returns_array = True and
whose name is not burst_volt / burst_volt_timer: the loop only prints a skip
message for it. -/
def arrayCmd : Cmd :=
  { name := "waveform", is_config := false, setter := false, getter_inputs := 0,
    setter_inputs := 0, has_returns_array_attr := true, returns_array := true,
    ascii_has_ac_dc := false, ascii_has_chan := false, ascii_has_channel := false,
    read_write := "" }

/-- A plain scpi.SCPI control-layer object whose command dict holds only
`arrayCmd`. -/
def arrayObj : ScpiObj :=
  { kind := InstrKind.scpiPlain, cmds := [arrayCmd], channels := [] }

/-- Counterexample to claim C2 as stated: `arrayCmd` is a command of the dict
of a control-layer object with no setter and getter_inputs == 0, so the claim
requires a read-only ScpiSignalBase component under its name, but
generate_ophyd_obj creates no component for it at all (array-returning
commands other than burst_volt / burst_volt_timer are skipped). -/
theorem generate_ophyd_obj_not_total_counterexample :
    arrayObj.kind.isSCPI = true ∧ arrayCmd ∈ arrayObj.cmds ∧
    arrayCmd.setter = false ∧ arrayCmd.getter_inputs = 0 ∧
    dictLookup (generate_ophyd_obj arrayObj) arrayCmd.name = none := by
  refine ⟨rfl, ?_, rfl, rfl, by decide⟩
  simp [arrayObj]

/-- Claim C2, amended: for a control-layer object that is a plain scpi.SCPI
instance (not one of the special instrument subclasses) with pairwise distinct
command names, every command cmd whose getter_type lacks a returns_array
attribute (and whose name is not the reserved key 'unconnected') is wrapped as
a component of the generated Device exactly as follows: a read-write
ScpiSignal when cmd has a setter with cmd.getter_inputs == 0 and
cmd.setter_inputs < 2; a read-only ScpiSignalBase when cmd has no setter and
cmd.getter_inputs == 0; and no component otherwise. -/
theorem generate_ophyd_obj_plain_scpi_wraps (obj : ScpiObj) (cmd : Cmd)
    (hk : obj.kind = InstrKind.scpiPlain)
    (hmem : cmd ∈ obj.cmds)
    (hnd : (obj.cmds.map Cmd.name).Nodup)
    (hna : cmd.has_returns_array_attr = false)
    (hun : cmd.name ≠ "unconnected") :
    dictLookup (generate_ophyd_obj obj) cmd.name =
      if cmd.setter = true ∧ cmd.getter_inputs = 0 ∧ cmd.setter_inputs < 2 then
        some (plainComp SigClass.scpiSignal cmd.name [] (some (comp_kind_of cmd)))
      else if cmd.setter = false ∧ cmd.getter_inputs = 0 then
        some (plainComp SigClass.scpiSignalBase cmd.name [] (some (comp_kind_of cmd)))
      else none := by
  have hfil : (generate_ophyd_obj obj).filter (fun p => p.1 == cmd.name)
      = componentsForCmd obj cmd := by
    unfold generate_ophyd_obj
    rw [List.filter_append]
    have h2 : ([(("unconnected" : String), DictEntry.pyObj)].filter
        (fun p => p.1 == cmd.name)) = [] := by
      simp [Ne.symm hun]
    rw [filter_flatMap_single obj.cmds (componentsForCmd obj) cmd
      (fun c' _ => componentsForCmd_plain_keys obj c' hk) hmem hnd, h2, List.append_nil]
  unfold dictLookup
  rw [hfil, componentsForCmd_plain obj cmd hk, if_neg (by simp [hna])]
  by_cases h1 : cmd.setter = true ∧ cmd.getter_inputs = 0 ∧ cmd.setter_inputs < 2
  · have h2 : ¬(cmd.setter = false ∧ cmd.getter_inputs = 0) := by
      intro hcon
      rw [h1.1] at hcon
      exact absurd hcon.1 (by simp)
    simp [h1, h2]
  · by_cases h2 : cmd.setter = false ∧ cmd.getter_inputs = 0
    · simp [h1, h2]
    · simp [h1, h2]

/-- A plain-SCPI read-write command: a setter with getter_inputs 0 and
setter_inputs 1 and a non-array getter. -/
def freqCmd : Cmd :=
  { name := "freq", is_config := false, setter := true, getter_inputs := 0,
    setter_inputs := 1, has_returns_array_attr := false, returns_array := false,
    ascii_has_ac_dc := false, ascii_has_chan := false, ascii_has_channel := false,
    read_write := "" }

/-- A plain scpi.SCPI control-layer object holding only `freqCmd`. -/
def plainObj : ScpiObj :=
  { kind := InstrKind.scpiPlain, cmds := [freqCmd], channels := [] }

/-- Witness for the amended C2: the freq command becomes a read-write
ScpiSignal component of the generated device. -/
theorem generate_ophyd_obj_plain_scpi_wraps_witness :
    dictLookup (generate_ophyd_obj plainObj) "freq" =
      some (plainComp SigClass.scpiSignal "freq" [] (some CompKind.normal)) := by
  have h := generate_ophyd_obj_plain_scpi_wraps plainObj freqCmd rfl
    (by simp [plainObj]) (by simp [plainObj]) rfl (by decide)
  simpa [freqCmd, comp_kind_of] using h
